import Mathlib

/-!
Shallow embedding of `src/MapLayers/api.py` (Surface Layers Visualizer backend).

Python floats are modelled as real numbers (`ℝ`) for the trigonometric
bounding-box computation and as rationals (`ℚ`) for coordinates and the
fixed linear calibration / grid arithmetic, where every quantity involved
is exactly representable.  JSON dictionaries for OSM elements are modelled
by a structure; the optional `tags` dictionary is an association list
(`elem.get('tags', {})` makes a missing dictionary equal to an empty one).
Network effects are modelled by passing the parsed outcome of each
external call explicitly: `fetch_overpass_data` receives the per-endpoint
outcome list (`none` = any failure: non-2xx, network error, malformed
body), and `generate_layers` receives the parsed geodata response.
-/

namespace MapLayers

open scoped Real

/-- One node of a way geometry: the source reads `node['lon']`, `node['lat']`. -/
structure Node where
  lon : ℚ
  lat : ℚ
deriving DecidableEq

/-- An element of the `elements` list of an Overpass response.
`type` models `elem['type']`; `geometry` is `none` when the key
`'geometry'` is absent; `tags` models `elem.get('tags', {})`
(a missing dictionary collapses to the empty association list). -/
structure Element where
  type : String
  geometry : Option (List Node)
  tags : List (String × String)
deriving DecidableEq

/-- A GeoJSON polygon feature as built in `classify_and_convert`:
`{"type": "Feature", "geometry": {"type": "Polygon", "coordinates": [coords]},
"properties": tags}`. -/
structure Feature where
  type : String
  geomType : String
  coordinates : List (List (ℚ × ℚ))
  properties : List (String × String)
deriving DecidableEq

/-- `{"type": "FeatureCollection", "features": [...]}`. -/
structure FeatureCollection where
  type : String
  features : List Feature
deriving DecidableEq

/-- Python `tags.get(k)`: value of the first entry with key `k`, else `None`. -/
def tagsGet (tags : List (String × String)) (k : String) : Option String :=
  (tags.find? (fun p => p.1 == k)).map (fun p => p.2)

/-- Python `k in tags` (dictionary key membership). -/
def tagsHasKey (tags : List (String × String)) (k : String) : Bool :=
  tags.any (fun p => p.1 == k)

/-- `sealed_tags = {'building', 'highway', 'railway', 'aeroway', 'amenity'}` -/
def sealed_tags : List String := ["building", "highway", "railway", "aeroway", "amenity"]

/-- `sealed_landuse = {'industrial', 'commercial', 'retail', 'construction', 'railway'}` -/
def sealed_landuse : List String :=
  ["industrial", "commercial", "retail", "construction", "railway"]

/-- `sealed_leisure = {'pitch', 'track', 'sports_centre'}` -/
def sealed_leisure : List String := ["pitch", "track", "sports_centre"]

/-- The classification expression of `classify_and_convert`:
`any(tag in tags for tag in sealed_tags) or tags.get('landuse') in sealed_landuse
or tags.get('leisure') in sealed_leisure` (note `None in s` is `False`). -/
def isSealed (tags : List (String × String)) : Bool :=
  sealed_tags.any (fun tag => tagsHasKey tags tag) ||
  (match tagsGet tags "landuse" with
   | some v => sealed_landuse.contains v
   | none => false) ||
  (match tagsGet tags "leisure" with
   | some v => sealed_leisure.contains v
   | none => false)

/-- Ring closing in `classify_and_convert`:
`if coords[0] != coords[-1]: coords.append(coords[0])`.
(The source only reaches this line with `len(coords) ≥ 3`.) -/
def closeRing (coords : List (ℚ × ℚ)) : List (ℚ × ℚ) :=
  if coords.head? ≠ coords.getLast? then coords ++ coords.head?.toList else coords

/-- The loop body of `classify_and_convert` for one element: `none` when the
element is skipped (`continue`), otherwise the sealed/unsealed label paired
with the built feature. -/
def processElem (elem : Element) : Option (Bool × Feature) :=
  if elem.type ≠ "way" then none
  else
    match elem.geometry with
    | none => none
    | some geometry =>
      let tags := elem.tags
      let coords := geometry.map (fun node => (node.lon, node.lat))
      if coords.length < 3 then none
      else
        let coords := closeRing coords
        some (isSealed tags,
          { type := "Feature"
            geomType := "Polygon"
            coordinates := [coords]
            properties := tags })

/-- `classify_and_convert(osm_data)`.  The input models the parsed JSON:
`none` stands for a falsy `osm_data` or one lacking the `'elements'` key,
`some elements` for `{'elements': elements, ...}`. -/
def classify_and_convert (osm_data : Option (List Element)) :
    FeatureCollection × FeatureCollection :=
  match osm_data with
  | none =>
    let empty : FeatureCollection := { type := "FeatureCollection", features := [] }
    (empty, empty)
  | some elements =>
    let acc := elements.foldl
      (fun acc elem =>
        match processElem elem with
        | none => acc
        | some (true, feature) => (acc.1 ++ [feature], acc.2)
        | some (false, feature) => (acc.1, acc.2 ++ [feature]))
      ([], [])
    ({ type := "FeatureCollection", features := acc.1 },
     { type := "FeatureCollection", features := acc.2 })

/-- `math.radians(x) = x * π / 180`. -/
noncomputable def radians (x : ℝ) : ℝ := x * Real.pi / 180

/-- `get_bbox(center_lat, center_lon, square_size_km)` returning
`(south, west, north, east)`. -/
noncomputable def get_bbox (center_lat center_lon square_size_km : ℝ) : ℝ × ℝ × ℝ × ℝ :=
  let half_size_km := square_size_km / 2
  let lat_offset := half_size_km / 111.0
  let lon_offset := half_size_km / (111.0 * Real.cos (radians center_lat))
  (center_lat - lat_offset,
   center_lon - lon_offset,
   center_lat + lat_offset,
   center_lon + lon_offset)

/-- `fetch_overpass_data`: tries the endpoints in order; `attempts` lists, per
endpoint, the parsed response when that call succeeds, or `none` on any
failure (non-2xx status raised by `raise_for_status`, network error, or
malformed JSON).  The first success is returned; when the loop exhausts the
list, `HTTPException(503, ...)` is raised, modelled by `Except.error`. -/
def fetch_overpass_data {α : Type} : List (Option α) → Except (ℕ × String) α
  | [] => .error (503, "All Overpass API servers are unavailable")
  | none :: rest => fetch_overpass_data rest
  | some d :: _ => .ok d

/-- The response model of the `generate-layers` handler. -/
structure LayerResponse where
  sealed_geojson : FeatureCollection
  unsealed_geojson : FeatureCollection
  status : String
  sealed_count : ℕ
  unsealed_count : ℕ
deriving DecidableEq

/-- The `generate_layers` handler after the Overpass fetch: `osm_data` is the
parsed geodata response handed to `classify_and_convert`; the handler
packages both collections with status `"success"` and the feature counts. -/
def generate_layers (osm_data : Option (List Element)) : LayerResponse :=
  let pair := classify_and_convert osm_data
  { sealed_geojson := pair.1
    unsealed_geojson := pair.2
    status := "success"
    sealed_count := pair.1.features.length
    unsealed_count := pair.2.features.length }

/-- `st_k = image.select('ST_B10').multiply(0.00341802).add(149.0)` applied to
one raw digital number. -/
def st_k (raw : ℚ) : ℚ := raw * 0.00341802 + 149.0

/-- `st_c = st_k.subtract(273.15)` applied to one raw digital number. -/
def st_c (raw : ℚ) : ℚ := st_k raw - 273.15

/-- `grid_size = 50`. -/
def grid_size : ℚ := 50

/-- `sample_scale_m = max(request.size_km * 1000.0 / grid_size, 30.0)`. -/
def sample_scale_m (size_km : ℚ) : ℚ := max (size_km * 1000.0 / grid_size) 30.0

/-- `half_size = sample_scale_m / 111320.0`. -/
def half_size (size_km : ℚ) : ℚ := sample_scale_m size_km / 111320.0

/-- The feature an element contributes to the sealed collection, if any. -/
def keepSealed (elem : Element) : Option Feature :=
  match processElem elem with
  | some (true, feature) => some feature
  | _ => none

/-- The feature an element contributes to the unsealed collection, if any. -/
def keepUnsealed (elem : Element) : Option Feature :=
  match processElem elem with
  | some (false, feature) => some feature
  | _ => none

/-- Modelled from the spec: a "valid way element" is a way whose geometry has
at least 3 coordinate pairs ("ways with geometry of at least 3 coordinate
pairs"); used to compare the handler's counts against the spec's phrasing. -/
def isValidWay (elem : Element) : Bool :=
  elem.type == "way" &&
    match elem.geometry with
    | some geometry => decide (3 ≤ geometry.length)
    | none => false

/-- Concrete fixture: a tagged building way (classified sealed). -/
def elemBuilding : Element :=
  { type := "way"
    geometry := some [⟨0, 0⟩, ⟨1, 0⟩, ⟨1, 1⟩]
    tags := [("building", "yes")] }

/-- The feature `classify_and_convert` builds from `elemBuilding`. -/
def featBuilding : Feature :=
  { type := "Feature"
    geomType := "Polygon"
    coordinates := [[(0, 0), (1, 0), (1, 1), (0, 0)]]
    properties := [("building", "yes")] }

/-- Concrete fixture: a wood way (classified unsealed). -/
def elemWood : Element :=
  { type := "way"
    geometry := some [⟨0, 0⟩, ⟨1, 0⟩, ⟨0, 1⟩]
    tags := [("natural", "wood")] }

/-- Concrete fixture: a non-way element (dropped by the classifier). -/
def elemNode : Element :=
  { type := "node"
    geometry := none
    tags := [] }

/-! ### Helper lemmas -/

/-- The classifier's fold, characterised by `filterMap`: the sealed (resp.
unsealed) features are exactly the contributions of the elements in source
order. -/
lemma classify_eq (elements : List Element) :
    classify_and_convert (some elements) =
      ({ type := "FeatureCollection", features := elements.filterMap keepSealed },
       { type := "FeatureCollection", features := elements.filterMap keepUnsealed }) := by
  have h : ∀ (es : List Element) (s u : List Feature),
      es.foldl
        (fun acc elem =>
          match processElem elem with
          | none => acc
          | some (true, feature) => (acc.1 ++ [feature], acc.2)
          | some (false, feature) => (acc.1, acc.2 ++ [feature]))
        (s, u)
      = (s ++ es.filterMap keepSealed, u ++ es.filterMap keepUnsealed) := by
    intro es
    induction es with
    | nil => intro s u; simp
    | cons e es ih =>
      intro s u
      simp only [List.foldl_cons, List.filterMap_cons]
      cases hpe : processElem e with
      | none => simp [keepSealed, keepUnsealed, hpe, ih]
      | some bf =>
        obtain ⟨b, f⟩ := bf
        cases b <;> simp [keepSealed, keepUnsealed, hpe, ih]
  simp [classify_and_convert, h]

/-- Inversion of the loop body: what a produced label/feature pair looks like. -/
lemma processElem_some {elem : Element} {b : Bool} {f : Feature}
    (h : processElem elem = some (b, f)) :
    b = isSealed elem.tags ∧ f.type = "Feature" ∧ f.geomType = "Polygon" ∧
      f.properties = elem.tags ∧ elem.type = "way" ∧
      ∃ geometry, elem.geometry = some geometry ∧ 3 ≤ geometry.length ∧
        f.coordinates = [closeRing (geometry.map (fun node => (node.lon, node.lat)))] := by
  unfold processElem at h
  split at h
  · exact absurd h (by simp)
  next hty =>
    rw [not_not] at hty
    cases hgeom : elem.geometry with
    | none => rw [hgeom] at h; exact absurd h (by simp)
    | some geometry =>
      rw [hgeom] at h
      dsimp only at h
      split at h
      · exact absurd h (by simp)
      next hlen =>
        rw [Option.some.injEq, Prod.mk.injEq] at h
        obtain ⟨hb, hf⟩ := h
        subst hf
        rw [List.length_map] at hlen
        exact ⟨hb.symm, rfl, rfl, rfl, hty, geometry, rfl, by omega, rfl⟩

/-- When nothing is appended the ring was already closed; otherwise the head
is appended, so `closeRing` always yields a list whose head equals its last
element (for nonempty input). -/
lemma closeRing_head_eq_getLast {coords : List (ℚ × ℚ)} (h : coords ≠ []) :
    (closeRing coords).head? = (closeRing coords).getLast? := by
  unfold closeRing
  split
  next hne =>
    obtain ⟨c, cs, rfl⟩ := List.exists_cons_of_ne_nil h
    simp only [List.head?_cons, Option.toList_some, List.cons_append, List.head?_cons]
    rw [← List.cons_append, List.getLast?_concat]
  next hne => exact not_not.mp hne

/-- Membership in the sealed contributions comes from an element whose
processed label is `true`. -/
lemma mem_filterMap_keepSealed {elements : List Element} {f : Feature}
    (h : f ∈ elements.filterMap keepSealed) :
    ∃ e ∈ elements, processElem e = some (true, f) := by
  rw [List.mem_filterMap] at h
  obtain ⟨e, he, hk⟩ := h
  refine ⟨e, he, ?_⟩
  unfold keepSealed at hk
  split at hk
  next heq => rw [Option.some.injEq] at hk; rw [heq, hk]
  next => exact absurd hk (by simp)

/-- Membership in the unsealed contributions comes from an element whose
processed label is `false`. -/
lemma mem_filterMap_keepUnsealed {elements : List Element} {f : Feature}
    (h : f ∈ elements.filterMap keepUnsealed) :
    ∃ e ∈ elements, processElem e = some (false, f) := by
  rw [List.mem_filterMap] at h
  obtain ⟨e, he, hk⟩ := h
  refine ⟨e, he, ?_⟩
  unfold keepUnsealed at hk
  split at hk
  next heq => rw [Option.some.injEq] at hk; rw [heq, hk]
  next => exact absurd hk (by simp)

/-- Every processed element lands in exactly one of the two contribution
lists, so the lengths add up to the number of processed elements. -/
lemma length_filterMap_add (elements : List Element) :
    (elements.filterMap keepSealed).length + (elements.filterMap keepUnsealed).length
      = elements.countP (fun e => (processElem e).isSome) := by
  induction elements with
  | nil => simp
  | cons e es ih =>
    rw [List.filterMap_cons, List.filterMap_cons, List.countP_cons]
    cases hpe : processElem e with
    | none => simp [keepSealed, keepUnsealed, hpe, ih]
    | some bf =>
      obtain ⟨b, f⟩ := bf
      cases b <;> simp [keepSealed, keepUnsealed, hpe, ih] <;> omega

/-- The loop body succeeds exactly on the spec's "valid way elements". -/
lemma processElem_isSome_eq (elem : Element) :
    (processElem elem).isSome = isValidWay elem := by
  unfold processElem isValidWay
  by_cases hty : elem.type = "way"
  · cases hgeom : elem.geometry with
    | none => simp [hty, hgeom]
    | some geometry =>
      dsimp only
      rw [if_neg (by simp [hty])]
      split
      next hlen =>
        rw [List.length_map] at hlen
        simp [hty, show ¬(3 ≤ geometry.length) by omega]
      next hlen =>
        rw [List.length_map] at hlen
        simp [hty, show 3 ≤ geometry.length by omega]
  · simp [hty]

/-! ### Claim theorems -/

/-- Claim C6: `fetch_overpass_data` tries the endpoints in list order in a
single pass and returns the first successful response; it raises the 503
`ServiceUnavailable` error if and only if every endpoint fails; in
particular with three endpoints where the first two fail and the third
succeeds, the result is the third endpoint's response. -/
theorem fetch_overpass_fallback_spec :
    (∀ (α : Type) (pre post : List (Option α)) (d : α),
        (∀ x ∈ pre, x = none) →
        fetch_overpass_data (pre ++ some d :: post) = .ok d)
  ∧ (∀ (α : Type) (attempts : List (Option α)),
        fetch_overpass_data attempts
            = .error (503, "All Overpass API servers are unavailable")
          ↔ ∀ x ∈ attempts, x = none)
  ∧ (∀ (α : Type) (d : α),
        fetch_overpass_data [none, none, some d] = .ok d) := by
  refine ⟨?_, ?_, ?_⟩
  · intro α pre post d
    induction pre with
    | nil => intro _; rfl
    | cons a pre ih =>
      intro hpre
      have ha : a = none := hpre a (List.mem_cons_self a pre)
      subst ha
      simp only [List.cons_append, fetch_overpass_data]
      exact ih (fun x hx => hpre x (List.mem_cons_of_mem _ hx))
  · intro α attempts
    induction attempts with
    | nil => simp [fetch_overpass_data]
    | cons a rest ih =>
      cases a with
      | none => simp [fetch_overpass_data, ih]
      | some d => simp [fetch_overpass_data]
  · intro α d
    rfl

/-- Witness for C6 at a concrete three-endpoint outcome list. -/
theorem fetch_overpass_fallback_spec_witness :
    (∀ x ∈ ([none, none] : List (Option ℕ)), x = none) ∧
      fetch_overpass_data ([none, none] ++ some 7 :: ([] : List (Option ℕ))) = .ok 7 :=
  ⟨by decide, fetch_overpass_fallback_spec.1 ℕ [none, none] [] 7 (by decide)⟩

/-- Claim C7: the thermal calibration composed in the temperature pipeline is
`Celsius(raw) = (raw * 0.00341802 + 149.0) - 273.15`, and a raw value of `0`
maps to exactly `-124.15` degrees Celsius. -/
theorem st_calibration_spec :
    (∀ raw : ℚ, st_c raw = (raw * 0.00341802 + 149.0) - 273.15) ∧
      st_c 0 = -124.15 := by
  constructor
  · intro raw; rfl
  · norm_num [st_c, st_k]

/-- Witness for C7 applying the general formula at raw value 5. -/
theorem st_calibration_spec_witness :
    st_c 5 = (5 * 0.00341802 + 149.0) - 273.15 :=
  st_calibration_spec.1 5

/-- Claim C8: the temperature sampling scale is
`max(size_km * 1000 / 50, 30)` meters and the synthesized square half-width
is that scale divided by `111320` degrees; for `size_km = 5` the scale is
`100` meters and the half-width `100 / 111320` degrees. -/
theorem sampling_scale_spec :
    (∀ size_km : ℚ,
        sample_scale_m size_km = max (size_km * 1000 / 50) 30 ∧
        half_size size_km = sample_scale_m size_km / 111320)
  ∧ sample_scale_m 5 = 100
  ∧ half_size 5 = 100 / 111320 := by
  have h5 : sample_scale_m 5 = 100 := by
    rw [sample_scale_m, grid_size]
    rw [show (5 : ℚ) * 1000.0 / 50 = 100 by norm_num]
    exact max_eq_left (by norm_num)
  refine ⟨fun size_km => ⟨?_, ?_⟩, h5, ?_⟩
  · rw [sample_scale_m, grid_size]; norm_num
  · rw [half_size]; norm_num
  · rw [half_size, h5]; norm_num

/-- Witness for C8 applying the general formulas at `size_km = 2`. -/
theorem sampling_scale_spec_witness :
    sample_scale_m 2 = max (2 * 1000 / 50) 30 ∧
      half_size 2 = sample_scale_m 2 / 111320 :=
  sampling_scale_spec.1 2

/-- Claim C10: on a falsy geodata input or one lacking the `elements` key,
`classify_and_convert` returns two empty `FeatureCollection`s. -/
theorem classify_empty_input_spec :
    classify_and_convert none
      = ({ type := "FeatureCollection", features := [] },
         { type := "FeatureCollection", features := [] }) := rfl

/-- Claim C2: the two output collections are exactly the per-element
contributions in source order; a processed element's feature lands in the
collection named by its label, and only there (a sealed feature's tags
classify sealed, an unsealed feature's tags classify unsealed); and the
label is a deterministic function of the element's tag mapping alone. -/
theorem classify_partition_spec :
    (∀ elements : List Element,
        (classify_and_convert (some elements)).1.features = elements.filterMap keepSealed ∧
        (classify_and_convert (some elements)).2.features = elements.filterMap keepUnsealed)
  ∧ (∀ (elements : List Element) (e : Element) (b : Bool) (f : Feature),
        e ∈ elements → processElem e = some (b, f) →
        (b = true → f ∈ (classify_and_convert (some elements)).1.features) ∧
        (b = false → f ∈ (classify_and_convert (some elements)).2.features))
  ∧ (∀ (elements : List Element) (f : Feature),
        f ∈ (classify_and_convert (some elements)).1.features →
        isSealed f.properties = true)
  ∧ (∀ (elements : List Element) (f : Feature),
        f ∈ (classify_and_convert (some elements)).2.features →
        isSealed f.properties = false)
  ∧ (∀ (e₁ e₂ : Element) (b₁ b₂ : Bool) (f₁ f₂ : Feature),
        e₁.tags = e₂.tags →
        processElem e₁ = some (b₁, f₁) → processElem e₂ = some (b₂, f₂) →
        b₁ = b₂) := by
  refine ⟨?_, ?_, ?_, ?_, ?_⟩
  · intro elements
    rw [classify_eq]
    exact ⟨rfl, rfl⟩
  · intro elements e b f he hpe
    constructor
    · rintro rfl
      rw [classify_eq]
      exact List.mem_filterMap.mpr ⟨e, he, by simp [keepSealed, hpe]⟩
    · rintro rfl
      rw [classify_eq]
      exact List.mem_filterMap.mpr ⟨e, he, by simp [keepUnsealed, hpe]⟩
  · intro elements f hf
    rw [classify_eq] at hf
    obtain ⟨e, -, hpe⟩ := mem_filterMap_keepSealed hf
    obtain ⟨hb, -, -, hprops, -⟩ := processElem_some hpe
    rw [hprops]
    exact hb.symm
  · intro elements f hf
    rw [classify_eq] at hf
    obtain ⟨e, -, hpe⟩ := mem_filterMap_keepUnsealed hf
    obtain ⟨hb, -, -, hprops, -⟩ := processElem_some hpe
    rw [hprops]
    exact hb.symm
  · intro e₁ e₂ b₁ b₂ f₁ f₂ htags h1 h2
    rw [(processElem_some h1).1, (processElem_some h2).1, htags]

/-- Witness for C2 on a concrete two-element list. -/
theorem classify_partition_spec_witness :
    processElem elemBuilding = some (true, featBuilding) ∧
      featBuilding ∈ (classify_and_convert (some [elemBuilding, elemWood])).1.features :=
  ⟨by decide,
    (classify_partition_spec.2.1 [elemBuilding, elemWood] elemBuilding true featBuilding
      (by decide) (by decide)).1 rfl⟩

/-- Claim C3: every feature ring in either output is closed (its first
coordinate pair equals its last), and the ring-closing step appends the
first coordinate exactly once when the endpoints differ and appends nothing
when they already coincide. -/
theorem closed_ring_spec :
    (∀ (elements : List Element) (f : Feature),
        (f ∈ (classify_and_convert (some elements)).1.features ∨
         f ∈ (classify_and_convert (some elements)).2.features) →
        ∀ ring ∈ f.coordinates, ring.head? = ring.getLast?)
  ∧ (∀ coords : List (ℚ × ℚ), coords ≠ [] →
        (coords.head? = coords.getLast? → closeRing coords = coords) ∧
        (coords.head? ≠ coords.getLast? →
          ∃ c, coords.head? = some c ∧ closeRing coords = coords ++ [c])) := by
  constructor
  · intro elements f hf ring hring
    have hpe : ∃ e ∈ elements, ∃ b, processElem e = some (b, f) := by
      cases hf with
      | inl h =>
        rw [classify_eq] at h
        obtain ⟨e, he, hp⟩ := mem_filterMap_keepSealed h
        exact ⟨e, he, true, hp⟩
      | inr h =>
        rw [classify_eq] at h
        obtain ⟨e, he, hp⟩ := mem_filterMap_keepUnsealed h
        exact ⟨e, he, false, hp⟩
    obtain ⟨e, -, b, hp⟩ := hpe
    obtain ⟨-, -, -, -, -, geometry, -, hlen, hcoords⟩ := processElem_some hp
    rw [hcoords, List.mem_singleton] at hring
    subst hring
    exact closeRing_head_eq_getLast
      (List.ne_nil_of_length_pos (by rw [List.length_map]; omega))
  · intro coords hne
    constructor
    · intro h
      rw [closeRing, if_neg (not_not_intro h)]
    · intro h
      obtain ⟨c, cs, rfl⟩ := List.exists_cons_of_ne_nil hne
      exact ⟨c, rfl, by rw [closeRing, if_pos h]; rfl⟩

/-- Witness for C3 on the building fixture's output feature. -/
theorem closed_ring_spec_witness :
    featBuilding ∈ (classify_and_convert (some [elemBuilding])).1.features ∧
      ∀ ring ∈ featBuilding.coordinates, ring.head? = ring.getLast? :=
  ⟨by decide,
    closed_ring_spec.1 [elemBuilding] featBuilding (Or.inl (by decide))⟩

/-- Claim C5: an element that is not a way, or lacks geometry, or has fewer
than 3 coordinate pairs is dropped entirely: its loop body yields nothing
and removing it from the element list leaves both collections unchanged. -/
theorem invalid_elements_dropped :
    ∀ e : Element,
      (e.type ≠ "way" ∨ e.geometry = none ∨
        ∃ geometry, e.geometry = some geometry ∧ geometry.length < 3) →
      processElem e = none ∧
      ∀ pre post : List Element,
        classify_and_convert (some (pre ++ e :: post)) =
          classify_and_convert (some (pre ++ post)) := by
  intro e he
  have hnone : processElem e = none := by
    rcases he with hty | hgeom | ⟨geometry, hgeom, hlen⟩
    · simp [processElem, hty]
    · simp [processElem, hgeom]
    · rw [processElem]
      split
      · rfl
      · rw [hgeom]
        dsimp only
        rw [if_pos (by rw [List.length_map]; omega)]
  have hs : keepSealed e = none := by simp [keepSealed, hnone]
  have hu : keepUnsealed e = none := by simp [keepUnsealed, hnone]
  refine ⟨hnone, ?_⟩
  intro pre post
  have key : ∀ (g : Element → Option Feature), g e = none →
      (pre ++ e :: post).filterMap g = (pre ++ post).filterMap g := by
    intro g hg
    rw [List.filterMap_append, List.filterMap_append, List.filterMap_cons, hg]
  rw [classify_eq, classify_eq, key keepSealed hs, key keepUnsealed hu]

/-- Witness for C5 on the non-way fixture. -/
theorem invalid_elements_dropped_witness :
    processElem elemNode = none ∧
      classify_and_convert (some ([elemBuilding] ++ elemNode :: [elemWood])) =
        classify_and_convert (some ([elemBuilding] ++ [elemWood])) :=
  ⟨(invalid_elements_dropped elemNode (Or.inl (by decide))).1,
    (invalid_elements_dropped elemNode (Or.inl (by decide))).2 [elemBuilding] [elemWood]⟩

/-- Claim C9: the `generate-layers` handler reports status `"success"` and
counts equal to the lengths of the two collections, whose sum is the number
of valid way elements (ways with geometry of at least 3 coordinate pairs)
in the geodata response. -/
theorem generate_layers_counts_spec :
    ∀ elements : List Element,
      (generate_layers (some elements)).status = "success" ∧
      (generate_layers (some elements)).sealed_count
        = (generate_layers (some elements)).sealed_geojson.features.length ∧
      (generate_layers (some elements)).unsealed_count
        = (generate_layers (some elements)).unsealed_geojson.features.length ∧
      (generate_layers (some elements)).sealed_count
          + (generate_layers (some elements)).unsealed_count
        = elements.countP (fun e => isValidWay e) := by
  intro elements
  refine ⟨rfl, rfl, rfl, ?_⟩
  show (classify_and_convert (some elements)).1.features.length
      + (classify_and_convert (some elements)).2.features.length
    = elements.countP (fun e => isValidWay e)
  rw [classify_eq]
  show (elements.filterMap keepSealed).length + (elements.filterMap keepUnsealed).length
    = elements.countP (fun e => isValidWay e)
  rw [length_filterMap_add]
  congr 1
  funext e
  exact processElem_isSome_eq e

/-- Witness for C9 on a concrete three-element response. -/
theorem generate_layers_counts_spec_witness :
    (generate_layers (some [elemBuilding, elemNode, elemWood])).status = "success" ∧
      (generate_layers (some [elemBuilding, elemNode, elemWood])).sealed_count
        = (generate_layers (some [elemBuilding, elemNode, elemWood])).sealed_geojson.features.length ∧
      (generate_layers (some [elemBuilding, elemNode, elemWood])).unsealed_count
        = (generate_layers (some [elemBuilding, elemNode, elemWood])).unsealed_geojson.features.length ∧
      (generate_layers (some [elemBuilding, elemNode, elemWood])).sealed_count
          + (generate_layers (some [elemBuilding, elemNode, elemWood])).unsealed_count
        = [elemBuilding, elemNode, elemWood].countP (fun e => isValidWay e) :=
  generate_layers_counts_spec [elemBuilding, elemNode, elemWood]

/-- The key-presence disjunct of the classification rule, as an existential
over the tag entries. -/
lemma sealedKeys_any_iff (tags : List (String × String)) :
    sealed_tags.any (fun tag => tagsHasKey tags tag) = true ↔
      ∃ p ∈ tags, p.1 = "building" ∨ p.1 = "highway" ∨ p.1 = "railway" ∨
        p.1 = "aeroway" ∨ p.1 = "amenity" := by
  simp only [List.any_eq_true, tagsHasKey, beq_iff_eq, sealed_tags,
    List.mem_cons, List.not_mem_nil, or_false]
  constructor
  · rintro ⟨t, ht, p, hp, rfl⟩
    exact ⟨p, hp, ht⟩
  · rintro ⟨p, hp, hcase⟩
    exact ⟨p.1, hcase, p, hp, rfl⟩

/-- The value-membership disjuncts of the classification rule: the `match` on
an optional tag value tests membership of the looked-up value. -/
lemma matchContains_iff (o : Option String) (l : List String) :
    (match o with | some v => l.contains v | none => false) = true ↔
      ∃ v, o = some v ∧ v ∈ l := by
  cases o with
  | none => simp
  | some v => simp [List.contains, List.elem_eq_mem]

/-- Claim C4: an element is classified sealed exactly when its tags contain
one of the keys building/highway/railway/aeroway/amenity, or a `landuse`
value among industrial/commercial/retail/construction/railway, or a
`leisure` value among pitch/track/sports_centre; in particular an `amenity`
key with any value classifies sealed. -/
theorem isSealed_iff_spec :
    (∀ tags : List (String × String),
        isSealed tags = true ↔
          ((∃ p ∈ tags, p.1 = "building" ∨ p.1 = "highway" ∨ p.1 = "railway" ∨
              p.1 = "aeroway" ∨ p.1 = "amenity") ∨
           (∃ v, tagsGet tags "landuse" = some v ∧
              (v = "industrial" ∨ v = "commercial" ∨ v = "retail" ∨
               v = "construction" ∨ v = "railway")) ∨
           (∃ v, tagsGet tags "leisure" = some v ∧
              (v = "pitch" ∨ v = "track" ∨ v = "sports_centre"))))
  ∧ (∀ (tags : List (String × String)) (v : String),
        ("amenity", v) ∈ tags → isSealed tags = true) := by
  have main : ∀ tags : List (String × String),
      isSealed tags = true ↔
        ((∃ p ∈ tags, p.1 = "building" ∨ p.1 = "highway" ∨ p.1 = "railway" ∨
            p.1 = "aeroway" ∨ p.1 = "amenity") ∨
         (∃ v, tagsGet tags "landuse" = some v ∧
            (v = "industrial" ∨ v = "commercial" ∨ v = "retail" ∨
             v = "construction" ∨ v = "railway")) ∨
         (∃ v, tagsGet tags "leisure" = some v ∧
            (v = "pitch" ∨ v = "track" ∨ v = "sports_centre"))) := by
    intro tags
    rw [isSealed]
    simp only [Bool.or_eq_true]
    rw [sealedKeys_any_iff, matchContains_iff, matchContains_iff]
    simp only [sealed_landuse, sealed_leisure, List.mem_cons, List.not_mem_nil, or_false]
    rw [or_assoc]
  refine ⟨main, fun tags v hv => (main tags).mpr (Or.inl ⟨("amenity", v), hv, by tauto⟩)⟩

/-- Witness for C4: an amenity tag with an arbitrary value is sealed. -/
theorem isSealed_iff_spec_witness :
    ("amenity", "fountain") ∈ [("amenity", "fountain")] ∧
      isSealed [("amenity", "fountain")] = true :=
  ⟨by decide, isSealed_iff_spec.2 [("amenity", "fountain")] "fountain" (by decide)⟩

/-- Claim C1 (amended to the open latitude interval): for `-90 < lat < 90`,
`lon ∈ [-180, 180]` and `size_km ∈ [0.5, 10]`, the bounding box
`(south, west, north, east)` satisfies `south < north`, `west < east`, and
is exactly symmetric around the center. -/
theorem get_bbox_interior_valid :
    ∀ lat lon size_km : ℝ,
      -90 < lat → lat < 90 → -180 ≤ lon → lon ≤ 180 →
      0.5 ≤ size_km → size_km ≤ 10 →
      (get_bbox lat lon size_km).1 < (get_bbox lat lon size_km).2.2.1 ∧
      (get_bbox lat lon size_km).2.1 < (get_bbox lat lon size_km).2.2.2 ∧
      (get_bbox lat lon size_km).2.2.1 - lat = lat - (get_bbox lat lon size_km).1 ∧
      (get_bbox lat lon size_km).2.2.2 - lon = lon - (get_bbox lat lon size_km).2.1 := by
  intro lat lon size_km hlat1 hlat2 _ _ hsize _
  have hπ := Real.pi_pos
  have hcos : 0 < Real.cos (radians lat) := by
    apply Real.cos_pos_of_mem_Ioo
    constructor
    · show -(Real.pi / 2) < radians lat
      rw [radians]
      nlinarith
    · show radians lat < Real.pi / 2
      rw [radians]
      nlinarith
  have hbb : get_bbox lat lon size_km =
      (lat - size_km / 2 / 111.0,
       lon - size_km / 2 / (111.0 * Real.cos (radians lat)),
       lat + size_km / 2 / 111.0,
       lon + size_km / 2 / (111.0 * Real.cos (radians lat))) := rfl
  have hlatoff : 0 < size_km / 2 / 111.0 :=
    div_pos (div_pos (by linarith) two_pos) (by norm_num)
  have hlonoff : 0 < size_km / 2 / (111.0 * Real.cos (radians lat)) :=
    div_pos (div_pos (by linarith) two_pos) (mul_pos (by norm_num) hcos)
  rw [hbb]
  dsimp only
  refine ⟨by linarith, by linarith, by ring, by ring⟩

/-- Counterexample for C1 as stated: at the admissible input
`lat = 90, lon = 0, size_km = 1` the longitude divisor `cos(90°)` is zero,
so west and east coincide and `west < east` fails. -/
theorem get_bbox_pole_counterexample :
    ((-90 : ℝ) ≤ 90 ∧ (90 : ℝ) ≤ 90 ∧ (-180 : ℝ) ≤ 0 ∧ (0 : ℝ) ≤ 180 ∧
      (0.5 : ℝ) ≤ 1 ∧ (1 : ℝ) ≤ 10) ∧
    ¬ ((get_bbox 90 0 1).2.1 < (get_bbox 90 0 1).2.2.2) := by
  refine ⟨by norm_num, ?_⟩
  have hrad : radians 90 = Real.pi / 2 := by rw [radians]; ring
  have hcos : Real.cos (radians (90 : ℝ)) = 0 := by rw [hrad, Real.cos_pi_div_two]
  have h1 : (get_bbox 90 0 1).2.1 = (0 : ℝ) := by
    show (0 : ℝ) - 1 / 2 / (111.0 * Real.cos (radians 90)) = 0
    rw [hcos]
    norm_num
  have h2 : (get_bbox 90 0 1).2.2.2 = (0 : ℝ) := by
    show (0 : ℝ) + 1 / 2 / (111.0 * Real.cos (radians 90)) = 0
    rw [hcos]
    norm_num
  intro hlt
  rw [h1, h2] at hlt
  exact lt_irrefl 0 hlt

/-- Witness for C1 at the spec's example center (Vienna) with a 1 km box. -/
theorem get_bbox_interior_valid_witness :
    ((-90 : ℝ) < 48.2082 ∧ (48.2082 : ℝ) < 90 ∧ (-180 : ℝ) ≤ 16.3738 ∧
      (16.3738 : ℝ) ≤ 180 ∧ (0.5 : ℝ) ≤ 1 ∧ (1 : ℝ) ≤ 10) ∧
    ((get_bbox 48.2082 16.3738 1).1 < (get_bbox 48.2082 16.3738 1).2.2.1 ∧
     (get_bbox 48.2082 16.3738 1).2.1 < (get_bbox 48.2082 16.3738 1).2.2.2 ∧
     (get_bbox 48.2082 16.3738 1).2.2.1 - 48.2082
        = 48.2082 - (get_bbox 48.2082 16.3738 1).1 ∧
     (get_bbox 48.2082 16.3738 1).2.2.2 - 16.3738
        = 16.3738 - (get_bbox 48.2082 16.3738 1).2.1) :=
  ⟨by norm_num,
    get_bbox_interior_valid 48.2082 16.3738 1 (by norm_num) (by norm_num) (by norm_num)
      (by norm_num) (by norm_num) (by norm_num)⟩

end MapLayers

